import Mathlib

/-!
Verification of the request-scheduling and result-aggregation engine of
`httploader.py` (safe-http-load-tester).

The Python source is shallowly embedded: pure computations (the statistics
calculator, configuration validation, the rate-delay formula, the result
classification) become Lean functions on `Int`/`Nat`/`ℚ`/`Option String`;
the concurrent parts (the semaphore discipline of `single_request`, the
`as_completed` collection loop of `run_test`) become event traces and a
nondeterministic small-step relation over them.
-/

namespace HttpLoader

/-- Embedding of the `TestResult` dataclass (httploader.py lines 48-54):
`status_code : int`, `response_time : float` (modelled as `ℚ`),
`response_size_bytes : int`, `error : Optional[str]`. -/
structure TestResult where
  status_code : Int
  response_time : ℚ
  response_size_bytes : Nat
  error : Option String
deriving DecidableEq

/-- Python truthiness of the `error` field (`if r.error:` / `r.error or ...`):
true exactly when the field is a non-None, non-empty string. -/
def errorTruthy : Option String → Bool
  | none => false
  | some s => decide (s ≠ "")

/-- Embedding of `StatisticsCalculator._get_response_times` (line 64):
`[r.response_time for r in self.results if r.error is None]`. -/
def getResponseTimes (results : List TestResult) : List ℚ :=
  (results.filter (fun r => r.error.isNone)).map (fun r => r.response_time)

/-- Success filter of `print_summary` (line 72):
`200 <= r.status_code < 400 and r.error is None`. -/
def isSuccess (r : TestResult) : Bool :=
  (decide (200 ≤ r.status_code) && decide (r.status_code < 400)) && r.error.isNone

/-- Failure filter of `print_summary` (line 73):
`r.status_code >= 400 or r.error or r.status_code == -1`. -/
def isFailure (r : TestResult) : Bool :=
  (decide (400 ≤ r.status_code) || errorTruthy r.error) || decide (r.status_code = -1)

/-- The `successes` list of `print_summary` (line 72). -/
def successes (results : List TestResult) : List TestResult :=
  results.filter isSuccess

/-- The `failures` list of `print_summary` (line 73). -/
def failures (results : List TestResult) : List TestResult :=
  results.filter isFailure

/-- The `total_data` sum of `print_summary` (line 79). -/
def totalData (results : List TestResult) : Nat :=
  (results.map (fun r => r.response_size_bytes)).sum

/-- Embedding of line 82: `total_reqs / self.duration if self.duration > 0 else 0`. -/
def actualRps (results : List TestResult) (duration : ℚ) : ℚ :=
  if 0 < duration then (results.length : ℚ) / duration else 0

/-- Embedding of line 83:
`(total_data * 8) / (self.duration * 1_000_000) if self.duration > 0 else 0`. -/
def throughputMbps (results : List TestResult) (duration : ℚ) : ℚ :=
  if 0 < duration then ((totalData results : ℚ) * 8) / (duration * 1000000) else 0

/-- The `np.mean` of a sample list (0 on the empty list, never reached by the
guarded caller). -/
def npMean (xs : List ℚ) : ℚ := xs.sum / (xs.length : ℚ)

/-- The `np.min` of a sample list. -/
def npMin : List ℚ → ℚ
  | [] => 0
  | h :: t => t.foldl min h

/-- The `np.max` of a sample list. -/
def npMax : List ℚ → ℚ
  | [] => 0
  | h :: t => t.foldl max h

/-- The population variance, i.e. the square of `np.std`
(the report prints its square root; the square root of a rational is not
rational, so the variance is the value carried here). -/
def npVarSq (xs : List ℚ) : ℚ :=
  npMean (xs.map (fun x => (x - npMean xs) ^ 2))

/-- The `np.percentile` of a sample list with the default linear
interpolation between order statistics: for a sorted sample `s` of length
`n`, the value at fractional rank `q / 100 * (n - 1)`. -/
def npPercentile (xs : List ℚ) (q : ℚ) : ℚ :=
  let s := List.insertionSort (fun a b : ℚ => a ≤ b) xs
  match s.length with
  | 0 => 0
  | Nat.succ m =>
    let pos := q * (m : ℚ) / 100
    let k : Int := ⌊pos⌋
    let frac := pos - (k : ℚ)
    let lo := s.getD k.toNat 0
    let hi := s.getD (k.toNat + 1) lo
    lo + frac * (hi - lo)

/-- The latency block of `print_summary` (lines 100-114): the statistics it
prints and the samples they are computed over. -/
structure LatencyStats where
  samples : List ℚ
  mean : ℚ
  median : ℚ
  minv : ℚ
  maxv : ℚ
  varSq : ℚ
  p90 : ℚ
  p95 : ℚ
  p99 : ℚ
  histogramShown : Bool
deriving DecidableEq

/-- Embedding of the latency section of `print_summary` (lines 100-114): the
section is rendered only when `response_times` (the times of the results with
`error is None`) is non-empty; the samples are those times converted to
milliseconds, and the histogram is shown only with at least 10 samples. -/
def latencySection (results : List TestResult) : Option LatencyStats :=
  let ts := getResponseTimes results
  if ts.isEmpty then none
  else
    let ms := ts.map (fun t => t * 1000)
    some { samples := ms
           mean := npMean ms
           median := npPercentile ms 50
           minv := npMin ms
           maxv := npMax ms
           varSq := npVarSq ms
           p90 := npPercentile ms 90
           p95 := npPercentile ms 95
           p99 := npPercentile ms 99
           histogramShown := decide (10 ≤ ms.length) }

/-- Embedding of the configuration mapping consumed by
`AdvancedLoadTester` (the keys its core reads: lines 162-177, 241, 263). -/
structure Config where
  url : String
  requests : Int
  concurrent : Int
  rate : Int
deriving DecidableEq

/-- Embedding of `AdvancedLoadTester._validate_config` (lines 168-177): the
four checks in source order, each raising `ValueError` with the given
message; `url.startswith(('http://', 'https://'))` is the disjunction of the
two prefix tests. -/
def validateConfig (c : Config) : Except String Unit :=
  if c.requests ≤ 0 then Except.error "Number of requests must be greater than 0"
  else if c.concurrent ≤ 0 then Except.error "Concurrency must be greater than 0"
  else if c.rate ≤ 0 then Except.error "Rate limit must be greater than 0"
  else if !(c.url.startsWith "http://" || c.url.startsWith "https://") then
    Except.error "URL must start with http:// or https://"
  else Except.ok ()

/-- Outcomes of the guarded HTTP call inside `single_request`
(lines 186-226): a response with a status and a body, or one of the three
caught exception classes (`asyncio.TimeoutError`, `aiohttp.ClientError`
carrying the exception type name, any other `Exception` carrying the
exception type name). -/
inductive CallOutcome where
  | ok (status : Int) (bodyBytes : Nat)
  | timeout
  | clientError (excName : String)
  | unexpected (excName : String)
deriving DecidableEq

/-- The `TestResult` value returned by `single_request` for a call outcome
`o` with measured elapsed time `t` (lines 199-226): a response yields the
status, body length and no error; each caught exception yields status `-1`,
size `0` and the corresponding error string. -/
def singleRequestResult (o : CallOutcome) (t : ℚ) : TestResult :=
  match o with
  | CallOutcome.ok status bodyBytes =>
      { status_code := status, response_time := t,
        response_size_bytes := bodyBytes, error := none }
  | CallOutcome.timeout =>
      { status_code := -1, response_time := t,
        response_size_bytes := 0, error := some "TimeoutError" }
  | CallOutcome.clientError n =>
      { status_code := -1, response_time := t,
        response_size_bytes := 0, error := some ("ClientError: " ++ n) }
  | CallOutcome.unexpected n =>
      { status_code := -1, response_time := t,
        response_size_bytes := 0, error := some ("UnexpectedError: " ++ n) }

/-- What awaiting one task of the collection loop of `run_test` does: it
either returns the `TestResult` produced by `single_request`, or raises an
exception with some type name. -/
inductive TaskOutcome where
  | returns (r : TestResult)
  | raises (excName : String)
deriving DecidableEq

/-- The fallback `TestResult` synthesized by the collection loop for a task
that raised (lines 288-295): status `-1`, time `0.0`, size `0`,
`error = "TaskError: " ++ type(e).__name__`. -/
def taskErrorResult (excName : String) : TestResult :=
  { status_code := -1, response_time := 0,
    response_size_bytes := 0, error := some ("TaskError: " ++ excName) }

/-- The fallback `TestResult` of the secondary recovery path of `run_test`
(lines 313-319): `error = "TaskCollectionError"`. -/
def taskCollectionErrorResult : TestResult :=
  { status_code := -1, response_time := 0,
    response_size_bytes := 0, error := some "TaskCollectionError" }

/-- Embedding of the collection loop of `run_test` (lines 279-297): the
tasks are consumed in completion order; a task that returns a `TestResult`
has it appended (`single_request` always returns one, so the `isinstance`
guard passes), and a task that raises has `taskErrorResult` appended
instead. -/
def collectLoop : List TaskOutcome → List TestResult
  | [] => []
  | TaskOutcome.returns r :: rest => r :: collectLoop rest
  | TaskOutcome.raises e :: rest => taskErrorResult e :: collectLoop rest

/-- The single result contributed by one task outcome. -/
def outcomeToResult : TaskOutcome → TestResult
  | TaskOutcome.returns r => r
  | TaskOutcome.raises e => taskErrorResult e

/-- Embedding of the per-task delay computed in `run_test` (line 263):
`delay = (i // self.config['rate']) if self.config['rate'] > 0 else 0`. -/
def scheduledDelay (i rate : Nat) : Nat :=
  if 0 < rate then i / rate else 0

/-- Suspension and dispatch events of one `single_request` invocation
(lines 179-226), in program order. -/
inductive ExecEvent where
  | acquirePermit
  | rateSleep (d : Nat)
  | httpDispatch
  | callDone (o : CallOutcome)
  | releasePermit
deriving DecidableEq

/-- The event trace of one `single_request` invocation with scheduled delay
`d` ending in call outcome `o` (lines 180-226): the semaphore is acquired
first (`async with self.semaphore:` on line 180); inside it, the rate delay
is slept only when `request_delay` is truthy (line 182, so a zero delay is
skipped); then the HTTP call is dispatched and resolves to `o`; the
semaphore is released on exit from the `async with` block, on every path. -/
def singleRequestTrace (d : Nat) (o : CallOutcome) : List ExecEvent :=
  [ExecEvent.acquirePermit]
    ++ (if d ≠ 0 then [ExecEvent.rateSleep d] else [])
    ++ [ExecEvent.httpDispatch, ExecEvent.callDone o, ExecEvent.releasePermit]

/-- The wall-clock offset, from the moment a `single_request` invocation
starts running, at which its HTTP call is dispatched: the invocation first
waits `w ≥ 0` for the semaphore, then sleeps the delay `d` when `d` is
truthy (lines 180-185). -/
def dispatchOffset (w : ℚ) (d : Nat) : ℚ :=
  if d ≠ 0 then w + (d : ℚ) else w

/-- State of the permit-pool semantics: the remaining event trace of each
in-flight invocation, and the number of unreleased permits currently held. -/
structure SemState where
  pending : List (List ExecEvent)
  held : Nat

/-- Interleaving semantics of the invocations sharing the
`asyncio.Semaphore(C)` created on line 165: at each step one invocation
performs its next event; acquiring blocks unless fewer than `C` permits are
held, releasing gives a permit back, and every other event is internal. -/
inductive SemStep (C : Nat) : SemState → SemState → Prop
  | acquire (pre post : List (List ExecEvent)) (rest : List ExecEvent) (held : Nat)
      (hlt : held < C) :
      SemStep C ⟨pre ++ (ExecEvent.acquirePermit :: rest) :: post, held⟩
                ⟨pre ++ rest :: post, held + 1⟩
  | release (pre post : List (List ExecEvent)) (rest : List ExecEvent) (held : Nat) :
      SemStep C ⟨pre ++ (ExecEvent.releasePermit :: rest) :: post, held⟩
                ⟨pre ++ rest :: post, held - 1⟩
  | internal (pre post : List (List ExecEvent)) (rest : List ExecEvent) (held : Nat)
      (e : ExecEvent) (hna : e ≠ ExecEvent.acquirePermit)
      (hnr : e ≠ ExecEvent.releasePermit) :
      SemStep C ⟨pre ++ (e :: rest) :: post, held⟩ ⟨pre ++ rest :: post, held⟩

/-- Initial state of a run: the `N` invocation traces created by the task
loop of `run_test` (lines 261-267), no permit held. -/
def initState (N rate : Nat) (outcomes : Nat → CallOutcome) : SemState :=
  ⟨(List.range N).map (fun i => singleRequestTrace (scheduledDelay i rate) (outcomes i)), 0⟩

/-- Proposition that a trace acquires exactly one permit and releases it
exactly once, as its final event, on every outcome path. -/
def releaseDiscipline (tr : List ExecEvent) : Prop :=
  tr.getLast? = some ExecEvent.releasePermit
    ∧ tr.count ExecEvent.releasePermit = 1
    ∧ tr.count ExecEvent.acquirePermit = 1

/-- Tags of the closed spec error-kind set, in the spellings the code
produces. Modelled from the spec: `Timeout` is the tag `"TimeoutError"`;
`ConnectionError` and `ProtocolError` are the tags of shape
`"ClientError: <name>"` (the `aiohttp.ClientError` hierarchy covers both
connection-level and protocol-level failures); `TaskFailure` is a tag of
shape `"TaskError: <name>"` or the tag `"TaskCollectionError"`. -/
def inSpecErrorKinds (tag : String) : Prop :=
  tag = "TimeoutError"
    ∨ (∃ n, tag = "ClientError: " ++ n)
    ∨ (∃ n, tag = "TaskError: " ++ n)
    ∨ tag = "TaskCollectionError"

/-- The tag shapes the code can actually attach to a failure result: the
spec kinds plus the catch-all `"UnexpectedError: <name>"` shape produced by
the `except Exception` branch (lines 220-226). -/
def inProducedErrorKinds (tag : String) : Prop :=
  inSpecErrorKinds tag ∨ (∃ n, tag = "UnexpectedError: " ++ n)

/-- Helper: the collection loop appends exactly the image of the task
outcomes under `outcomeToResult`. -/
theorem collectLoop_eq_map (l : List TaskOutcome) :
    collectLoop l = l.map outcomeToResult := by
  induction l with
  | nil => rfl
  | cons o rest ih => cases o <;> simp [collectLoop, outcomeToResult, ih]

/-- C1: for every run with configured request count `N ≥ 1` that completes,
the collected result list has exactly `N` entries, one per dispatch index
(up to completion order), with tasks that raised replaced by the
synthesized `TaskError` failure result — no outcome lost, none
duplicated, even when every task fails. -/
theorem c1_run_collects_exactly_n (N : Nat) (_hN : 1 ≤ N)
    (behav : Nat → TaskOutcome) (completed : List TaskOutcome)
    (hperm : completed.Perm ((List.range N).map behav)) :
    (collectLoop completed).length = N
      ∧ (collectLoop completed).Perm
          ((List.range N).map (fun i => outcomeToResult (behav i))) := by
  constructor
  · rw [collectLoop_eq_map, List.length_map, hperm.length_eq,
      List.length_map, List.length_range]
  · rw [collectLoop_eq_map]
    simpa [List.map_map, Function.comp] using hperm.map outcomeToResult

/-- Witness for C1 at `N = 2` with both tasks raising. -/
theorem c1_run_collects_exactly_n_witness :
    (collectLoop ((List.range 2).map (fun _ => TaskOutcome.raises "OSError"))).length = 2
      ∧ (collectLoop ((List.range 2).map (fun _ => TaskOutcome.raises "OSError"))).Perm
          ((List.range 2).map
            (fun i => outcomeToResult ((fun _ => TaskOutcome.raises "OSError") i))) :=
  c1_run_collects_exactly_n 2 (by decide) (fun _ => TaskOutcome.raises "OSError")
    ((List.range 2).map (fun _ => TaskOutcome.raises "OSError")) (List.Perm.refl _)

/-- C3: a result whose error field is None or a non-empty tag (the only
shapes the program produces) is classified a success exactly when
`200 ≤ status_code < 400` with no error tag, and a failure exactly when
`status_code ≥ 400`, or an error tag is present, or `status_code = -1`. -/
theorem c3_classification (r : TestResult)
    (h : r.error = none ∨ ∃ s, r.error = some s ∧ s ≠ "") :
    (isSuccess r = true ↔ (200 ≤ r.status_code ∧ r.status_code < 400 ∧ r.error = none))
      ∧ (isFailure r = true
          ↔ (400 ≤ r.status_code ∨ r.error ≠ none ∨ r.status_code = -1)) := by
  constructor
  · simp [isSuccess, Option.isNone_iff_eq_none, and_assoc]
  · cases he : r.error with
    | none => simp [isFailure, errorTruthy, he]
    | some s =>
      rcases h with h | ⟨s2, hs2, hne⟩
      · rw [he] at h; cases h
      · rw [he] at hs2
        injection hs2 with hss
        subst hss
        simp [isFailure, errorTruthy, he, hne]

/-- Witness for C3 at a failure result with status 500 and no error tag. -/
theorem c3_classification_witness :
    isFailure { status_code := 500, response_time := 1,
                response_size_bytes := 0, error := none } = true :=
  ((c3_classification
      { status_code := 500, response_time := 1, response_size_bytes := 0, error := none }
      (Or.inl rfl)).2).mpr (Or.inl (by decide))

/-- C4 counterexample: with a non-zero scheduled delay, the trace of
`single_request` acquires the semaphore permit first (line 180) and only
then sleeps the rate delay (lines 182-183), so the rate-delay wait does not
precede the permit acquisition as the claim states. -/
theorem c4_counterexample :
    singleRequestTrace 1 (CallOutcome.ok 200 0)
        = [ExecEvent.acquirePermit, ExecEvent.rateSleep 1, ExecEvent.httpDispatch,
           ExecEvent.callDone (CallOutcome.ok 200 0), ExecEvent.releasePermit]
      ∧ ¬ (List.indexOf (ExecEvent.rateSleep 1) (singleRequestTrace 1 (CallOutcome.ok 200 0))
            < List.indexOf ExecEvent.acquirePermit
                (singleRequestTrace 1 (CallOutcome.ok 200 0))) := by
  decide

/-- C4 (amended): for every non-zero scheduled delay and every call outcome,
the executor first acquires the Concurrency Limiter permit and then performs
the rate-delay wait while holding the permit: the trace starts with the
acquisition, immediately followed by the sleep, and releases last. -/
theorem c4_acquire_then_sleep (d : Nat) (o : CallOutcome) (hd : d ≠ 0) :
    singleRequestTrace d o
      = ExecEvent.acquirePermit :: ExecEvent.rateSleep d
          :: [ExecEvent.httpDispatch, ExecEvent.callDone o, ExecEvent.releasePermit] := by
  rw [singleRequestTrace, if_pos hd]
  rfl

/-- Witness for the amended C4 at delay 1. -/
theorem c4_acquire_then_sleep_witness :
    singleRequestTrace 1 (CallOutcome.ok 200 0)
      = ExecEvent.acquirePermit :: ExecEvent.rateSleep 1
          :: [ExecEvent.httpDispatch, ExecEvent.callDone (CallOutcome.ok 200 0),
              ExecEvent.releasePermit] :=
  c4_acquire_then_sleep 1 (CallOutcome.ok 200 0) (by decide)

/-- C7: with target rate `R > 0`, the delay assigned to request `i` by
`run_test` equals `floor(i / R)` seconds, and the HTTP call of an invocation
with that delay is not dispatched earlier than `floor(i / R)` seconds after
the invocation starts running (its semaphore wait `w` is non-negative and
the sleep adds the full delay when it is non-zero). -/
theorem c7_staircase_delay (i rate : Nat) (hr : 0 < rate) (w : ℚ) (hw : 0 ≤ w) :
    scheduledDelay i rate = Nat.floor ((i : ℚ) / (rate : ℚ))
      ∧ (scheduledDelay i rate : ℚ) ≤ dispatchOffset w (scheduledDelay i rate) := by
  constructor
  · rw [scheduledDelay, if_pos hr, Nat.floor_div_eq_div]
  · rw [dispatchOffset]
    split_ifs with h
    · linarith
    · simp only [ne_eq, not_not] at h
      rw [h]
      simpa using hw

/-- Witness for C7 at `i = 7`, `R = 3`, semaphore wait `1/2`. -/
theorem c7_staircase_delay_witness :
    scheduledDelay 7 3 = Nat.floor ((7 : ℚ) / (3 : ℚ))
      ∧ (scheduledDelay 7 3 : ℚ) ≤ dispatchOffset (1 / 2) (scheduledDelay 7 3) :=
  c7_staircase_delay 7 3 (by decide) (1 / 2) (by norm_num)

/-- C8: `_validate_config` raises a `ValueError` — before any request is
dispatched, since it runs inside `__init__` — exactly when the request
count, concurrency or rate is non-positive, or the URL starts with neither
`http://` nor `https://`. -/
theorem c8_validation (c : Config) :
    (∃ msg, validateConfig c = Except.error msg)
      ↔ (c.requests ≤ 0 ∨ c.concurrent ≤ 0 ∨ c.rate ≤ 0
          ∨ (c.url.startsWith "http://" = false ∧ c.url.startsWith "https://" = false)) := by
  constructor
  · rintro ⟨msg, hmsg⟩
    unfold validateConfig at hmsg
    split_ifs at hmsg with h1 h2 h3 h4
    · exact Or.inl h1
    · exact Or.inr (Or.inl h2)
    · exact Or.inr (Or.inr (Or.inl h3))
    · refine Or.inr (Or.inr (Or.inr ?_))
      simpa [Bool.or_eq_true] using h4
  · intro h
    unfold validateConfig
    split_ifs with h1 h2 h3 h4
    · exact ⟨_, rfl⟩
    · exact ⟨_, rfl⟩
    · exact ⟨_, rfl⟩
    · exact ⟨_, rfl⟩
    · rcases h with h | h | h | h
      · exact absurd h h1
      · exact absurd h h2
      · exact absurd h h3
      · simp [h.1, h.2] at h4

/-- C9: the reported actual requests-per-second and Mbps throughput satisfy
`rps * duration = total_outcomes` and
`mbps * (duration * 1000000) = total_bytes * 8` when the duration is
positive, and both are 0 when the duration is non-positive. -/
theorem c9_rates (rs : List TestResult) (duration : ℚ) :
    (0 < duration →
        actualRps rs duration * duration = (rs.length : ℚ)
          ∧ throughputMbps rs duration * (duration * 1000000) = (totalData rs : ℚ) * 8)
      ∧ (duration ≤ 0 → actualRps rs duration = 0 ∧ throughputMbps rs duration = 0) := by
  constructor
  · intro hd
    constructor
    · rw [actualRps, if_pos hd]
      field_simp
    · rw [throughputMbps, if_pos hd]
      field_simp
  · intro hd
    rw [actualRps, throughputMbps, if_neg (not_lt.mpr hd), if_neg (not_lt.mpr hd)]
    exact ⟨rfl, rfl⟩

/-- Witness for C9 at a singleton result set and duration 2. -/
theorem c9_rates_witness :
    actualRps [{ status_code := 200, response_time := 1,
                 response_size_bytes := 3, error := none }] 2 * 2
        = (([{ status_code := 200, response_time := 1,
               response_size_bytes := 3, error := none }] : List TestResult).length : ℚ) :=
  ((c9_rates [{ status_code := 200, response_time := 1,
                response_size_bytes := 3, error := none }] 2).1 (by norm_num)).1

/-- C10: a result with a status code below 200 other than `-1` and no error
tag is counted neither as a success nor as a failure, so the two counts can
sum to less than the number of outcomes. -/
theorem c10_not_a_partition (r : TestResult) (h1 : r.status_code < 200)
    (h2 : r.status_code ≠ -1) (h3 : r.error = none) :
    isSuccess r = false ∧ isFailure r = false
      ∧ (successes [r]).length + (failures [r]).length < ([r] : List TestResult).length := by
  have hs : isSuccess r = false := by
    rw [isSuccess, h3]
    simp only [Option.isNone_none, Bool.and_true, Bool.and_eq_false_iff,
      decide_eq_false_iff_not, not_le, not_lt]
    left
    omega
  have hf : isFailure r = false := by
    rw [isFailure, h3]
    simp only [errorTruthy, Bool.or_false, Bool.or_eq_false_iff,
      decide_eq_false_iff_not]
    exact ⟨by omega, h2⟩
  refine ⟨hs, hf, ?_⟩
  simp [successes, failures, List.filter, hs, hf]

/-- Witness for C10 at an informational status 150. -/
theorem c10_not_a_partition_witness :
    isSuccess { status_code := 150, response_time := 0,
                response_size_bytes := 0, error := none } = false
      ∧ isFailure { status_code := 150, response_time := 0,
                    response_size_bytes := 0, error := none } = false
      ∧ (successes [{ status_code := 150, response_time := 0,
                      response_size_bytes := 0, error := none }]).length
          + (failures [{ status_code := 150, response_time := 0,
                         response_size_bytes := 0, error := none }]).length
          < ([{ status_code := 150, response_time := 0,
                response_size_bytes := 0, error := none }] : List TestResult).length :=
  c10_not_a_partition _ (by decide) (by decide) rfl

/-- C2 counterexample: the result set with a single outcome of status 500
and no error tag has zero successes, yet `print_summary` renders the latency
section and computes it over the elapsed time of that non-successful
outcome — the section is not omitted and is not restricted to successes. -/
theorem c2_counterexample :
    successes [{ status_code := 500, response_time := 1,
                 response_size_bytes := 0, error := none }] = []
      ∧ ∃ st, latencySection [{ status_code := 500, response_time := 1,
                                response_size_bytes := 0, error := none }] = some st
          ∧ st.samples = [1000] := by
  refine ⟨by decide, ?_⟩
  refine ⟨_, rfl, ?_⟩
  show List.map (fun t => t * 1000)
      (getResponseTimes [{ status_code := 500, response_time := 1,
                           response_size_bytes := 0, error := none }]) = [1000]
  norm_num [getResponseTimes, List.filter]

/-- C2 (amended): the latency statistics are computed over the elapsed
times (in milliseconds) of all outcomes whose error field is None,
regardless of status code, and the latency section is omitted exactly when
every outcome carries an error tag. -/
theorem c2_latency_over_error_free (rs : List TestResult) :
    (latencySection rs = none ↔ ∀ r ∈ rs, r.error ≠ none)
      ∧ ∀ st, latencySection rs = some st →
          st.samples = (rs.filter (fun r => r.error.isNone)).map
            (fun r => r.response_time * 1000) := by
  constructor
  · simp only [latencySection]
    split_ifs with h
    · simp only [eq_self_iff_true, true_iff]
      rw [List.isEmpty_iff] at h
      intro r hr hre
      have : r.response_time ∈ getResponseTimes rs := by
        rw [getResponseTimes]
        exact List.mem_map_of_mem _
          (List.mem_filter.mpr ⟨hr, Option.isNone_iff_eq_none.mpr hre⟩)
      rw [h] at this
      cases this
    · simp only [reduceCtorEq, false_iff, not_forall]
      rw [List.isEmpty_iff] at h
      have hne : getResponseTimes rs ≠ [] := h
      rw [getResponseTimes] at hne
      have : rs.filter (fun r => r.error.isNone) ≠ [] := by
        intro hfil
        exact hne (by rw [hfil]; rfl)
      obtain ⟨r, hr⟩ := List.exists_mem_of_ne_nil _ this
      have hmem := List.mem_filter.mp hr
      exact ⟨r, hmem.1, fun hc => hc (Option.isNone_iff_eq_none.mp hmem.2)⟩
  · intro st hst
    have h : (getResponseTimes rs).isEmpty = false := by
      by_contra hc
      rw [Bool.not_eq_false] at hc
      simp only [latencySection, hc, if_true] at hst
      cases hst
    simp only [latencySection, h, Bool.false_eq_true, if_false] at hst
    injection hst with hst
    rw [← hst]
    simp [getResponseTimes, List.map_map, Function.comp]

/-- Witness for the amended C2 at a one-element result set. -/
theorem c2_latency_over_error_free_witness :
    latencySection [{ status_code := 500, response_time := 1,
                      response_size_bytes := 0, error := none }] = none
      ↔ ∀ r ∈ [({ status_code := 500, response_time := 1,
                  response_size_bytes := 0, error := none } : TestResult)],
          r.error ≠ none :=
  (c2_latency_over_error_free
    [{ status_code := 500, response_time := 1,
       response_size_bytes := 0, error := none }]).1

/-- Helper: one step of the permit-pool semantics preserves the permit
bound. -/
theorem semStep_held_le (C : Nat) (s t : SemState) (h : SemStep C s t)
    (hs : s.held ≤ C) : t.held ≤ C := by
  cases h with
  | acquire pre post rest held hlt => exact hlt
  | release pre post rest held => exact le_trans (Nat.sub_le _ _) hs
  | internal pre post rest held e hna hnr => exact hs

/-- Helper: every `single_request` trace acquires exactly one permit and
releases it exactly once, as its final event, whatever the call outcome —
the `async with` block of line 180 releases on success, timeout and
unexpected exception alike. -/
theorem singleRequestTrace_discipline (d : Nat) (o : CallOutcome) :
    releaseDiscipline (singleRequestTrace d o) := by
  rw [releaseDiscipline, singleRequestTrace]
  split_ifs with h
  · exact ⟨rfl, rfl, rfl⟩
  · exact ⟨rfl, rfl, rfl⟩

/-- C5: in every state reachable from the start of a run, for any
interleaving of the concurrent invocations, at most `C` permits of the
semaphore created on line 165 are held simultaneously; and every
invocation trace acquires exactly one permit and releases it
unconditionally as its final event, on every outcome path including
timeout and unexpected exception. -/
theorem c5_semaphore_invariant (C N rate : Nat) (outcomes : Nat → CallOutcome)
    (st : SemState)
    (hreach : Relation.ReflTransGen (SemStep C) (initState N rate outcomes) st) :
    st.held ≤ C ∧ ∀ d o, releaseDiscipline (singleRequestTrace d o) := by
  refine ⟨?_, fun d o => singleRequestTrace_discipline d o⟩
  induction hreach with
  | refl => exact Nat.zero_le C
  | tail _hab hbc ih => exact semStep_held_le C _ _ hbc ih

/-- Witness for C5: capacity 1, one request, after its acquire step. -/
theorem c5_semaphore_invariant_witness :
    (⟨[[ExecEvent.httpDispatch, ExecEvent.callDone CallOutcome.timeout,
        ExecEvent.releasePermit]], 1⟩ : SemState).held ≤ 1
      ∧ ∀ d o, releaseDiscipline (singleRequestTrace d o) :=
  c5_semaphore_invariant 1 1 1 (fun _ => CallOutcome.timeout) _
    (Relation.ReflTransGen.single
      (SemStep.acquire [] []
        [ExecEvent.httpDispatch, ExecEvent.callDone CallOutcome.timeout,
         ExecEvent.releasePermit] 0 (by decide)))

/-- Helper: a string is never a given prefix extended by a suffix when its
first character differs from the first character of the prefix. -/
theorem ne_append_of_head_ne (s p : String) (cs cp : Char)
    (hs : s.data.head? = some cs) (hp : p.data.head? = some cp)
    (hne : cs ≠ cp) : ∀ n : String, s ≠ p ++ n := by
  intro n h
  apply hne
  have hd := congrArg (fun t => t.data.head?) h
  simp only [String.data_append] at hd
  rw [hs] at hd
  cases hpd : p.data with
  | nil => rw [hpd] at hp; cases hp
  | cons c rest =>
    rw [hpd] at hd hp
    simp only [List.cons_append, List.head?_cons] at hd hp
    injection hd with hd
    injection hp with hp
    rw [hd, hp]

/-- C6 counterexample: the `except Exception` branch of `single_request`
(lines 220-226) yields the failure tag `"UnexpectedError: AttributeError"`
(for instance when the `getattr` method lookup raises `AttributeError`): a
failure result whose tag lies outside the closed set
{Timeout, ConnectionError, ProtocolError, TaskFailure}. -/
theorem c6_counterexample :
    isFailure (singleRequestResult (CallOutcome.unexpected "AttributeError") 0) = true
      ∧ (singleRequestResult (CallOutcome.unexpected "AttributeError") 0).error
          = some "UnexpectedError: AttributeError"
      ∧ ¬ inSpecErrorKinds "UnexpectedError: AttributeError" := by
  refine ⟨by decide, rfl, ?_⟩
  rintro (h | ⟨n, h⟩ | ⟨n, h⟩ | h)
  · exact absurd h (by decide)
  · exact ne_append_of_head_ne "UnexpectedError: AttributeError" "ClientError: "
      'U' 'C' rfl rfl (by decide) n h
  · exact ne_append_of_head_ne "UnexpectedError: AttributeError" "TaskError: "
      'U' 'T' rfl rfl (by decide) n h
  · exact absurd h (by decide)

/-- C6 (amended): every failure result the run can produce carries a tag of
one of the shapes `TimeoutError`, `ClientError: <name>`,
`TaskError: <name>`, `TaskCollectionError` or the catch-all
`UnexpectedError: <name>` — the spec's four kinds plus the
unexpected-exception kind of lines 220-226 — and every result classified a
success carries no error tag. -/
theorem c6_error_tags (o : CallOutcome) (t : ℚ) (n : String) :
    (∀ tag, (singleRequestResult o t).error = some tag → inProducedErrorKinds tag)
      ∧ (taskErrorResult n).error = some ("TaskError: " ++ n)
      ∧ inProducedErrorKinds ("TaskError: " ++ n)
      ∧ taskCollectionErrorResult.error = some "TaskCollectionError"
      ∧ inProducedErrorKinds "TaskCollectionError"
      ∧ (∀ r : TestResult, isSuccess r = true → r.error = none) := by
  refine ⟨?_, rfl, Or.inl (Or.inr (Or.inr (Or.inl ⟨n, rfl⟩))), rfl,
    Or.inl (Or.inr (Or.inr (Or.inr rfl))), ?_⟩
  · intro tag htag
    cases o with
    | ok s b => cases htag
    | timeout =>
        injection htag with h
        rw [← h]
        exact Or.inl (Or.inl rfl)
    | clientError m =>
        injection htag with h
        rw [← h]
        exact Or.inl (Or.inr (Or.inl ⟨m, rfl⟩))
    | unexpected m =>
        injection htag with h
        rw [← h]
        exact Or.inr ⟨m, rfl⟩
  · intro r hr
    rw [isSuccess, Bool.and_eq_true] at hr
    exact Option.isNone_iff_eq_none.mp hr.2

/-- Witness for the amended C6 at the timeout outcome and a task error. -/
theorem c6_error_tags_witness :
    inProducedErrorKinds ("TaskError: " ++ "KeyError") :=
  (c6_error_tags CallOutcome.timeout 0 "KeyError").2.2.1

end HttpLoader
